import Mathlib

/-!
Shallow embedding of the Moctale browser-extension coordinator
(`src/scripts/background.js`) and the page-context agent (content script).

State that lives in the browser runtime (the in-memory `Map` behind
`CacheManager`, `chrome.storage.local`, `Date.now()`) is made explicit:
handlers take the current cache / storage slot and the current time as
arguments and return the updated state.  The agent response obtained via
`sendToContentScript` is likewise passed in as an argument, together with a
boolean output recording whether the agent was actually consulted on that
call path.
-/

namespace Moctale

/-! ## JavaScript string primitives

`String.prototype.trim` removes the ECMAScript WhiteSpace and LineTerminator
code points from both ends; `String.prototype.toLowerCase` is modelled by
per-character lowercasing. -/

def isJSWhitespace (c : Char) : Bool :=
  c.toNat ∈ [0x9, 0xa, 0xb, 0xc, 0xd, 0x20, 0xa0, 0x1680,
    0x2000, 0x2001, 0x2002, 0x2003, 0x2004, 0x2005, 0x2006, 0x2007,
    0x2008, 0x2009, 0x200a, 0x2028, 0x2029, 0x202f, 0x205f, 0x3000, 0xfeff]

def trimChars (l : List Char) : List Char :=
  ((l.dropWhile isJSWhitespace).reverse.dropWhile isJSWhitespace).reverse

def jsTrim (s : String) : String :=
  String.mk (trimChars s.data)

def jsToLower (s : String) : String :=
  String.mk (s.data.map Char.toLower)

/-! ## Response envelope

The uniform success/failure shape crossing every boundary.  JavaScript
objects carry whichever fields the producing path set; absent fields are
`none`. -/

structure Pagination where
  totalPages : Nat
  currentPage : Nat
  nextPage : Option Nat := none
  previousPage : Option Nat := none
  count : Nat
deriving DecidableEq, Repr

structure NormalizedItem where
  id : String
  title : String
  year : Option Nat := none
  rating : Option Nat := none
  ratingCount : Nat := 0
  poster : Option String := none
  banner : Option String := none
  summary : Option String := none
  type : String
  slug : String
  url : String
deriving DecidableEq, Repr

structure Envelope where
  success : Bool
  error : Option String := none
  message : Option String := none
  isLoggedIn : Option Bool := none
  username : Option String := none
  method : Option String := none
  indicator : Option String := none
  query : Option String := none
  endpoint : Option String := none
  results : Option (List NormalizedItem) := none
  pagination : Option Pagination := none
  cached : Option Bool := none
deriving DecidableEq, Repr

/-! ## CacheManager (background.js lines 27-81)

The backing JavaScript `Map` is modelled extensionally as an association
list; `Map.set`'s key uniqueness is realized by dropping any previous
binding for the key on insert, and `Map.delete` drops the binding. -/

def CACHE_TTL (type : String) : Nat :=
  if type = "searchResults" then 5 * 60 * 1000
  else if type = "movieDetails" then 15 * 60 * 1000
  else if type = "sessionState" then 60 * 1000
  else 5 * 60 * 1000

structure CacheEntry (α : Type) where
  data : α
  expiresAt : Nat
deriving DecidableEq, Repr

structure CacheManager (α : Type) where
  cache : List (String × CacheEntry α)
deriving DecidableEq, Repr

def CacheManager.generateKey (type : String) (args : List String) : String :=
  type ++ ":" ++ String.intercalate ":" args

def CacheManager.find (m : CacheManager α) (key : String) : Option (CacheEntry α) :=
  (m.cache.find? (fun p => p.1 == key)).map (fun p => p.2)

def CacheManager.delete (m : CacheManager α) (key : String) : CacheManager α :=
  ⟨m.cache.filter (fun p => p.1 != key)⟩

def CacheManager.insert (m : CacheManager α) (key : String) (e : CacheEntry α) :
    CacheManager α :=
  ⟨(key, e) :: m.cache.filter (fun p => p.1 != key)⟩

def CacheManager.get (m : CacheManager α) (now : Nat) (type : String)
    (args : List String) : Option α × CacheManager α :=
  let key := CacheManager.generateKey type args
  match m.find key with
  | none => (none, m)
  | some entry =>
      if now > entry.expiresAt then (none, m.delete key)
      else (some entry.data, m)

def CacheManager.set (m : CacheManager α) (now : Nat) (type : String) (data : α)
    (args : List String) : CacheManager α :=
  m.insert (CacheManager.generateKey type args) ⟨data, now + CACHE_TTL type⟩

def CacheManager.clear (_ : CacheManager α) : CacheManager α :=
  ⟨[]⟩

/-! ## Agent locator (background.js lines 89-158)

`sendToContentScript` resolves to a failure envelope when no Moctale tab is
found, when injection fails, or when messaging throws, and otherwise to the
agent's response; the locator/injection/messaging outcome is passed in. -/

def noMoctaleTabEnvelope : Envelope :=
  { success := false, error := some "NO_MOCTALE_TAB",
    message := some "Please open moctale.in in a browser tab first" }

def injectionFailedEnvelope : Envelope :=
  { success := false, error := some "INJECTION_FAILED",
    message := some "Failed to connect to Moctale tab" }

def communicationErrorEnvelope : Envelope :=
  { success := false, error := some "COMMUNICATION_ERROR",
    message := some "Failed to communicate with Moctale tab" }

inductive LocatorOutcome where
  | noTab
  | injectionFailed
  | messagingThrew
  | delivered (response : Envelope)
deriving DecidableEq, Repr

def sendToContentScript : LocatorOutcome → Envelope
  | .noTab => noMoctaleTabEnvelope
  | .injectionFailed => injectionFailedEnvelope
  | .messagingThrew => communicationErrorEnvelope
  | .delivered response => response

/-! ## Router message handlers (background.js lines 164-296)

`sendToContentScript` resolves to an envelope in every case: a
`NO_MOCTALE_TAB` or `INJECTION_FAILED` failure when the agent cannot be
located or injected, a `COMMUNICATION_ERROR` failure when messaging throws,
or the agent's own response.  That resolved envelope is the `response`
argument below.  Each handler returns the envelope it sends back, the
updated cache, and whether `sendToContentScript` was invoked. -/

def handleCheckSession (m : CacheManager Envelope) (now : Nat)
    (response : Envelope) : Envelope × CacheManager Envelope × Bool :=
  let r := m.get now "sessionState" ["status"]
  match r.1 with
  | some cachedSession => (cachedSession, r.2, false)
  | none =>
      if response.success then
        (response, (r.2).set now "sessionState" response ["status"], true)
      else (response, r.2, true)

def invalidQueryEnvelope : Envelope :=
  { success := false, error := some "INVALID_QUERY",
    message := some "Please enter a search term" }

def handleSearchMovies (m : CacheManager Envelope) (now : Nat)
    (response : Envelope) (query : Option String) :
    Envelope × CacheManager Envelope × Bool :=
  match query with
  | none => (invalidQueryEnvelope, m, false)
  | some q =>
      if q = "" ∨ jsTrim q = "" then (invalidQueryEnvelope, m, false)
      else
        let normalizedQuery := jsToLower (jsTrim q)
        let r := m.get now "searchResults" [normalizedQuery]
        match r.1 with
        | some cachedResults => ({ cachedResults with cached := some true }, r.2, false)
        | none =>
            if response.success then
              (response, (r.2).set now "searchResults" response [normalizedQuery], true)
            else (response, r.2, true)

def invalidIdEnvelope : Envelope :=
  { success := false, error := some "INVALID_ID",
    message := some "Movie ID is required" }

def handleGetMovieDetails (m : CacheManager Envelope) (now : Nat)
    (response : Envelope) (movieId : Option String) :
    Envelope × CacheManager Envelope × Bool :=
  match movieId with
  | none => (invalidIdEnvelope, m, false)
  | some mid =>
      if mid = "" then (invalidIdEnvelope, m, false)
      else
        let r := m.get now "movieDetails" [mid]
        match r.1 with
        | some cachedDetails => ({ cachedDetails with cached := some true }, r.2, false)
        | none =>
            if response.success then
              (response, (r.2).set now "movieDetails" response [mid], true)
            else (response, r.2, true)

/-! ## Pending-search handoff (background.js lines 269-296, 386-412)

`chrome.storage.local` holds at most one `pendingSearch` record; the slot is
modelled as an `Option PendingSearch` threaded through the handlers. -/

structure PendingSearch where
  query : String
  timestamp : Nat
deriving DecidableEq, Repr

def handleGetPendingSearch (slot : Option PendingSearch) (now : Nat) :
    Envelope × Option PendingSearch :=
  match slot with
  | some pendingSearch =>
      if now - pendingSearch.timestamp < 5 * 60 * 1000 then
        ({ success := true, query := some pendingSearch.query }, slot)
      else ({ success := false }, slot)
  | none => ({ success := false }, slot)

def handleClearPendingSearch (_ : Option PendingSearch) :
    Envelope × Option PendingSearch :=
  ({ success := true }, none)

def CONTEXT_MENU_ID : String := "moctale-search-selection"

/-- Context-menu click listener: when the selection is non-empty after
trimming, writes the pending-search record and opens the popup window.
Returns the updated slot and whether a popup window was created. -/
def contextMenusOnClicked (menuItemId : String) (selectionText : Option String)
    (now : Nat) (slot : Option PendingSearch) : Option PendingSearch × Bool :=
  if menuItemId = CONTEXT_MENU_ID ∧ selectionText.getD "" ≠ "" then
    let selectedText := jsTrim (selectionText.getD "")
    if selectedText ≠ "" then (some ⟨selectedText, now⟩, true)
    else (slot, false)
  else (slot, false)

/-! ## JavaScript `||` defaulting

`a || b` falls through on `null`/`undefined` and also on the falsy values
`0` and `""`. -/

def jsOrNat (a : Option Nat) (b : Nat) : Nat :=
  match a with
  | some n => if n = 0 then b else n
  | none => b

def jsOrOptNat (a : Option Nat) (b : Option Nat) : Option Nat :=
  match a with
  | some n => if n = 0 then b else some n
  | none => b

def jsOrOptStr (a : Option String) (b : Option String) : Option String :=
  match a with
  | some s => if s = "" then b else some s
  | none => b

/-! ## Page-context agent (content script)

`checkAuth` — the auth-detection cascade.  The cookie, DOM and API probes
inspect the page environment; each either produces a definite result or
`null`.  The cascade over those probe outcomes is embedded with the three
outcomes as arguments. -/

structure AuthProbeResult where
  isLoggedIn : Bool
  username : Option String := none
  method : String
  indicator : Option String := none
deriving DecidableEq, Repr

def authEnvelopeOfProbe (r : AuthProbeResult) : Envelope :=
  { success := true, isLoggedIn := some r.isLoggedIn, username := r.username,
    method := some r.method, indicator := r.indicator }

def checkAuth (cookieResult domResult apiResult : Option AuthProbeResult) :
    Envelope :=
  match cookieResult with
  | some r => authEnvelopeOfProbe r
  | none =>
      match domResult with
      | some r => authEnvelopeOfProbe r
      | none =>
          match apiResult with
          | some r => authEnvelopeOfProbe r
          | none =>
              { success := true, isLoggedIn := some false, username := none,
                method := some "cookie",
                message := some "No auth_token cookie found. Please log in." }

/-- Upstream search-result item shape `{ name, image, year, is_show, slug,
banner }` (plus optional fields the normalizer probes). -/
structure UpstreamItem where
  slug : String
  name : String
  year : Option Nat := none
  rating : Option Nat := none
  ratingCount : Option Nat := none
  image : Option String := none
  banner : Option String := none
  summary : Option String := none
  description : Option String := none
  is_show : Bool := false
deriving DecidableEq, Repr

def normalizeMovieData (item : UpstreamItem) : NormalizedItem :=
  { id := item.slug,
    title := item.name,
    year := item.year,
    rating := jsOrOptNat item.rating none,
    ratingCount := jsOrNat item.ratingCount 0,
    poster := item.image,
    banner := item.banner,
    summary := jsOrOptStr item.summary (jsOrOptStr item.description none),
    type := if item.is_show then "series" else "movie",
    slug := item.slug,
    url := "/content/" ++ item.slug }

/-- Parsed JSON body of `GET /api/search?q={query}&page={page}`. -/
structure SearchAPIResponse where
  total_pages : Option Nat := none
  current_page : Option Nat := none
  next_page : Option Nat := none
  previous_page : Option Nat := none
  count : Option Nat := none
  data : Option (List UpstreamItem) := none
deriving DecidableEq, Repr

/-- Outcome of the `fetchWithTimeout` call: a 2xx response with parsed JSON,
a non-2xx HTTP status, or a thrown error (network failure / abort). -/
inductive FetchResult (α : Type) where
  | ok (data : α)
  | httpStatus (status : Nat)
  | thrown (message : String)
deriving DecidableEq, Repr

def hexUpper (n : Nat) : Char :=
  if n < 10 then Char.ofNat (48 + n) else Char.ofNat (55 + n)

def utf8Bytes (n : Nat) : List Nat :=
  if n < 0x80 then [n]
  else if n < 0x800 then [0xc0 + n / 64, 0x80 + n % 64]
  else if n < 0x10000 then [0xe0 + n / 4096, 0x80 + n / 64 % 64, 0x80 + n % 64]
  else [0xf0 + n / 262144, 0x80 + n / 4096 % 64, 0x80 + n / 64 % 64, 0x80 + n % 64]

def isURIUnreserved (c : Char) : Bool :=
  c.isAlphanum ∨ c.toNat ∈ [45, 95, 46, 33, 126, 42, 39, 40, 41]

def encodeURIComponent (s : String) : String :=
  String.join (s.data.map (fun c =>
    if isURIUnreserved c then String.mk [c]
    else String.join ((utf8Bytes c.toNat).map (fun b =>
      String.mk ['%', hexUpper (b / 16), hexUpper (b % 16)]))))

def searchViaAPI (query : String) (page : Nat)
    (fetched : FetchResult SearchAPIResponse) : Envelope :=
  let endpoint := "/api/search?q=" ++ encodeURIComponent query ++ "&page="
    ++ toString page
  match fetched with
  | .ok d =>
      let results := d.data.getD []
      { success := true,
        method := some "api",
        endpoint := some endpoint,
        results := some (results.map normalizeMovieData),
        pagination := some
          { totalPages := jsOrNat d.total_pages 1,
            currentPage := jsOrNat d.current_page 1,
            nextPage := d.next_page,
            previousPage := d.previous_page,
            count := jsOrNat d.count results.length } }
  | .httpStatus status =>
      if status = 401 ∨ status = 403 then
        { success := false, error := some "UNAUTHORIZED",
          message := some "Session expired. Please log in again." }
      else
        { success := false, error := some "API_ERROR",
          message := some ("Search failed with status " ++ toString status) }
  | .thrown msg =>
      { success := false, error := some "NETWORK_ERROR",
        message := some (if msg = "" then "Network error occurred" else msg) }

/-! ## Concrete scenario data (spec §8) -/

def duneUpstreamItem : UpstreamItem :=
  { slug := "dune-2021", name := "Dune", year := some 2021,
    image := some "x.jpg", is_show := false }

def duneSearchAPIResponse : SearchAPIResponse :=
  { total_pages := some 3, current_page := some 1,
    data := some [duneUpstreamItem] }

def duneNormalizedItem : NormalizedItem :=
  { id := "dune-2021", title := "Dune", year := some 2021,
    poster := some "x.jpg", type := "movie", slug := "dune-2021",
    url := "/content/dune-2021" }

/-! ## Support lemmas -/

lemma find?_filter_key (l : List (String × CacheEntry α)) (k k' : String) :
    (l.filter (fun p => p.1 != k)).find? (fun p => p.1 == k') =
      if k' = k then none else l.find? (fun p => p.1 == k') := by
  induction l with
  | nil => simp
  | cons a tl ih =>
      by_cases ha : a.1 = k
      · have hfilter : (a :: tl).filter (fun p => p.1 != k) =
            tl.filter (fun p => p.1 != k) := by
          simp [List.filter_cons, ha]
        rw [hfilter, ih]
        by_cases hk : k' = k
        · simp [hk]
        · have hbeq : (a.1 == k') = false := by simp [ha, Ne.symm hk]
          rw [if_neg hk, if_neg hk]
          simp only [List.find?_cons, hbeq]
      · have hfilter : (a :: tl).filter (fun p => p.1 != k) =
            a :: tl.filter (fun p => p.1 != k) := by
          simp [List.filter_cons, ha]
        rw [hfilter]
        by_cases hak : a.1 = k'
        · have hbeq : (a.1 == k') = true := by simp [hak]
          simp only [List.find?_cons, hbeq,
            if_neg (fun hkk : k' = k => ha (hak.trans hkk))]
        · have hbeq : (a.1 == k') = false := by simp [hak]
          simp only [List.find?_cons, hbeq, ih]

lemma CacheManager.find_delete (m : CacheManager α) (k k' : String) :
    (m.delete k).find k' = if k' = k then none else m.find k' := by
  unfold CacheManager.delete CacheManager.find
  simp only [find?_filter_key]
  by_cases hk : k' = k <;> simp [hk]

lemma CacheManager.find_insert (m : CacheManager α) (k k' : String)
    (e : CacheEntry α) :
    (m.insert k e).find k' = if k' = k then some e else m.find k' := by
  unfold CacheManager.insert CacheManager.find
  by_cases hk : k' = k
  · have hbeq : (k == k') = true := by simp [hk]
    simp only [List.find?_cons, hbeq, if_pos hk, Option.map_some']
  · have hbeq : (k == k') = false := by simp [Ne.symm hk]
    simp only [List.find?_cons, hbeq, if_neg hk]
    have h := find?_filter_key m.cache k k'
    rw [if_neg hk] at h
    rw [h]

lemma CacheManager.find_set (m : CacheManager α) (now : Nat) (type : String)
    (v : α) (args : List String) (k : String) :
    (m.set now type v args).find k =
      if k = CacheManager.generateKey type args
      then some ⟨v, now + CACHE_TTL type⟩ else m.find k := by
  unfold CacheManager.set
  exact CacheManager.find_insert m _ k _

/-- Every binding surviving a `get` was already present beforehand (a read
never creates or rewrites an entry). -/
def noNewEntries (before after : CacheManager α) : Prop :=
  ∀ k e, after.find k = some e → before.find k = some e

/-- Every binding that is live at `now` survives unchanged (a read evicts
only the expired entry it looked up). -/
def livePreserved (before after : CacheManager α) (now : Nat) : Prop :=
  ∀ k e, before.find k = some e → now ≤ e.expiresAt → after.find k = some e

lemma get_noNewEntries (m : CacheManager α) (now : Nat) (type : String)
    (args : List String) : noNewEntries m (m.get now type args).2 := by
  intro k e h
  unfold CacheManager.get at h
  cases hf : m.find (CacheManager.generateKey type args) with
  | none => simpa [hf] using h
  | some entry =>
      simp only [hf] at h
      by_cases hexp : now > entry.expiresAt
      · rw [if_pos hexp] at h
        rw [CacheManager.find_delete] at h
        by_cases hk : k = CacheManager.generateKey type args
        · rw [if_pos hk] at h; exact absurd h (by simp)
        · rwa [if_neg hk] at h
      · rwa [if_neg hexp] at h

lemma get_livePreserved (m : CacheManager α) (now : Nat) (type : String)
    (args : List String) : livePreserved m (m.get now type args).2 now := by
  intro k e h hlive
  unfold CacheManager.get
  cases hf : m.find (CacheManager.generateKey type args) with
  | none => simpa [hf] using h
  | some entry =>
      simp only [hf]
      by_cases hexp : now > entry.expiresAt
      · rw [if_pos hexp]
        simp only [CacheManager.find_delete]
        by_cases hk : k = CacheManager.generateKey type args
        · exfalso
          rw [hk, hf] at h
          cases h
          exact absurd hexp (by omega)
        · rwa [if_neg hk]
      · rwa [if_neg hexp]

lemma jsTrim_empty : jsTrim "" = "" := rfl

lemma jsTrim_ne_empty_of (s : String) (h : jsTrim s ≠ "") : s ≠ "" :=
  fun hs => h (hs ▸ jsTrim_empty)

lemma jsToLower_eq_empty_iff (s : String) : jsToLower s = "" ↔ s = "" := by
  unfold jsToLower
  constructor
  · intro h
    cases s with
    | mk l =>
        cases l with
        | nil => rfl
        | cons c cs => exact absurd h (by simp [String.ext_iff])
  · intro h; subst h; rfl

lemma jsTrim_of_all_whitespace (s : String)
    (h : ∀ c ∈ s.data, isJSWhitespace c = true) : jsTrim s = "" := by
  unfold jsTrim trimChars
  have h1 : s.data.dropWhile isJSWhitespace = [] := by
    rw [List.dropWhile_eq_nil_iff]
    exact fun c hc => h c hc
  rw [h1]
  rfl

lemma CacheManager.get_eq (m : CacheManager α) (now : Nat) (type : String)
    (args : List String) :
    m.get now type args =
      match m.find (CacheManager.generateKey type args) with
      | none => (none, m)
      | some entry =>
          if now > entry.expiresAt
          then (none, m.delete (CacheManager.generateKey type args))
          else (some entry.data, m) := rfl

/-! ### Handler-shape lemmas -/

lemma handleCheckSession_hit (m : CacheManager Envelope) (now : Nat)
    (response cv : Envelope)
    (hhit : (m.get now "sessionState" ["status"]).1 = some cv) :
    handleCheckSession m now response =
      (cv, (m.get now "sessionState" ["status"]).2, false) := by
  simp only [handleCheckSession, hhit]

lemma handleCheckSession_miss (m : CacheManager Envelope) (now : Nat)
    (response : Envelope)
    (hmiss : (m.get now "sessionState" ["status"]).1 = none) :
    handleCheckSession m now response =
      (response,
       if response.success
       then ((m.get now "sessionState" ["status"]).2).set now "sessionState"
         response ["status"]
       else (m.get now "sessionState" ["status"]).2,
       true) := by
  simp only [handleCheckSession, hmiss]
  by_cases hs : response.success <;> simp [hs]

lemma handleSearchMovies_none (m : CacheManager Envelope) (now : Nat)
    (response : Envelope) :
    handleSearchMovies m now response none = (invalidQueryEnvelope, m, false) := rfl

lemma handleSearchMovies_invalid (m : CacheManager Envelope) (now : Nat)
    (response : Envelope) (q : String) (hq : jsTrim q = "") :
    handleSearchMovies m now response (some q) =
      (invalidQueryEnvelope, m, false) := by
  simp only [handleSearchMovies]
  rw [if_pos (Or.inr hq)]

lemma handleSearchMovies_hit (m : CacheManager Envelope) (now : Nat)
    (response : Envelope) (q : String) (cv : Envelope)
    (hq : jsTrim q ≠ "")
    (hhit : (m.get now "searchResults" [jsToLower (jsTrim q)]).1 = some cv) :
    handleSearchMovies m now response (some q) =
      ({ cv with cached := some true },
       (m.get now "searchResults" [jsToLower (jsTrim q)]).2, false) := by
  have hq' : q ≠ "" := jsTrim_ne_empty_of q hq
  simp only [handleSearchMovies]
  rw [if_neg (by simp [hq, hq'])]
  simp only [hhit]

lemma handleSearchMovies_miss (m : CacheManager Envelope) (now : Nat)
    (response : Envelope) (q : String)
    (hq : jsTrim q ≠ "")
    (hmiss : (m.get now "searchResults" [jsToLower (jsTrim q)]).1 = none) :
    handleSearchMovies m now response (some q) =
      (response,
       if response.success
       then ((m.get now "searchResults" [jsToLower (jsTrim q)]).2).set now
         "searchResults" response [jsToLower (jsTrim q)]
       else (m.get now "searchResults" [jsToLower (jsTrim q)]).2,
       true) := by
  have hq' : q ≠ "" := jsTrim_ne_empty_of q hq
  simp only [handleSearchMovies]
  rw [if_neg (by simp [hq, hq'])]
  simp only [hmiss]
  by_cases hs : response.success <;> simp [hs]

lemma handleGetMovieDetails_none (m : CacheManager Envelope) (now : Nat)
    (response : Envelope) :
    handleGetMovieDetails m now response none = (invalidIdEnvelope, m, false) := rfl

lemma handleGetMovieDetails_hit (m : CacheManager Envelope) (now : Nat)
    (response : Envelope) (mid : String) (cv : Envelope)
    (hmid : mid ≠ "")
    (hhit : (m.get now "movieDetails" [mid]).1 = some cv) :
    handleGetMovieDetails m now response (some mid) =
      ({ cv with cached := some true },
       (m.get now "movieDetails" [mid]).2, false) := by
  simp only [handleGetMovieDetails]
  rw [if_neg hmid]
  simp only [hhit]

lemma handleGetMovieDetails_miss (m : CacheManager Envelope) (now : Nat)
    (response : Envelope) (mid : String)
    (hmid : mid ≠ "")
    (hmiss : (m.get now "movieDetails" [mid]).1 = none) :
    handleGetMovieDetails m now response (some mid) =
      (response,
       if response.success
       then ((m.get now "movieDetails" [mid]).2).set now "movieDetails"
         response [mid]
       else (m.get now "movieDetails" [mid]).2,
       true) := by
  simp only [handleGetMovieDetails]
  rw [if_neg hmid]
  simp only [hmiss]
  by_cases hs : response.success <;> simp [hs]

/-! ## Claim theorems -/

/-- C3: for every category `C`, key tuple `K` and value `v`, `set(C, v, K)`
followed immediately by `get(C, K)` returns `v`; once `ttl(C)` has elapsed
past the `set`, `get(C, K)` returns absent and purges the entry as a side
effect, and the purge is idempotent: on the purged cache every subsequent
`get(C, K)` returns absent and leaves the cache unchanged. -/
theorem cache_set_get_roundtrip_and_expiry
    (m : CacheManager Envelope) (type : String) (v : Envelope)
    (args : List String) (tset t1 t2 : Nat)
    (h1 : tset + CACHE_TTL type < t1) :
    (((m.set tset type v args).get tset type args).1 = some v) ∧
    ((m.set tset type v args).get t1 type args =
      (none, (m.set tset type v args).delete (CacheManager.generateKey type args))) ∧
    ((((m.set tset type v args).get t1 type args).2.get t2 type args).1 = none) ∧
    ((((m.set tset type v args).get t1 type args).2.get t2 type args).2 =
      ((m.set tset type v args).get t1 type args).2) := by
  have hfind : (m.set tset type v args).find (CacheManager.generateKey type args)
      = some ⟨v, tset + CACHE_TTL type⟩ := by
    rw [CacheManager.find_set, if_pos rfl]
  have hexp : (m.set tset type v args).get t1 type args =
      (none, (m.set tset type v args).delete (CacheManager.generateKey type args)) := by
    rw [CacheManager.get_eq]
    simp only [hfind]
    rw [if_pos (by omega)]
  have hdelfind : ((m.set tset type v args).delete
      (CacheManager.generateKey type args)).find
      (CacheManager.generateKey type args) = none := by
    rw [CacheManager.find_delete, if_pos rfl]
  refine ⟨?_, hexp, ?_, ?_⟩
  · rw [CacheManager.get_eq]
    simp only [hfind]
    rw [if_neg (by omega)]
  · rw [hexp, CacheManager.get_eq]
    simp only [hdelfind]
  · rw [hexp, CacheManager.get_eq]
    simp only [hdelfind]

/-- Witness for C3 on the session-status category at concrete times. -/
theorem cache_set_get_roundtrip_and_expiry_witness :
    ((((⟨[]⟩ : CacheManager Envelope).set 0 "sessionState" { success := true }
      ["status"]).get 0 "sessionState" ["status"]).1 = some { success := true }) ∧
    ((((⟨[]⟩ : CacheManager Envelope).set 0 "sessionState" { success := true }
      ["status"]).get 60001 "sessionState" ["status"]).2.get 60002 "sessionState"
      ["status"]).1 = none := by
  have h := cache_set_get_roundtrip_and_expiry ⟨[]⟩ "sessionState"
    { success := true } ["status"] 0 60001 60002 (by decide)
  exact ⟨h.1, h.2.2.1⟩

/-- C4: a query that is `null`, empty, or consists only of whitespace is
rejected by `searchMovies` with the `INVALID_QUERY` validation envelope; the
agent is not invoked and the cache is returned untouched, so no entry is
created under any key. -/
theorem empty_query_validation_failure
    (m : CacheManager Envelope) (now : Nat) (response : Envelope) (q : String)
    (hws : ∀ c ∈ q.data, isJSWhitespace c = true) :
    handleSearchMovies m now response (some q) =
      (invalidQueryEnvelope, m, false) ∧
    handleSearchMovies m now response none =
      (invalidQueryEnvelope, m, false) ∧
    invalidQueryEnvelope.success = false ∧
    invalidQueryEnvelope.error = some "INVALID_QUERY" := by
  exact ⟨handleSearchMovies_invalid m now response q (jsTrim_of_all_whitespace q hws),
    handleSearchMovies_none m now response, rfl, rfl⟩

/-- Witness for C4 at the whitespace-only query "   ". -/
theorem empty_query_validation_failure_witness :
    handleSearchMovies ⟨[]⟩ 0 { success := true } (some "   ") =
      (invalidQueryEnvelope, ⟨[]⟩, false) :=
  (empty_query_validation_failure ⟨[]⟩ 0 { success := true } "   "
    (by decide)).1

/-- C6 as stated is false: within the search-results category the key built
from the two-argument tuple `["a", "b"]` coincides with the key built from
the distinct one-argument tuple `["a:b"]`, because arguments are joined with
the separator `":"`. -/
theorem generateKey_collision_counterexample :
    CacheManager.generateKey "searchResults" ["a", "b"] =
      CacheManager.generateKey "searchResults" ["a:b"] ∧
    (["a", "b"] : List String) ≠ ["a:b"] := by
  constructor
  · decide
  · decide

/-- C6 (amended): within each cache category, key construction is injective
over single-argument tuples — the only arity any call site uses (session
status, normalized search query, movie id each pass exactly one argument) —
so distinct post-normalization arguments never share a cache entry. -/
theorem generateKey_injective_single_arg (type a b : String)
    (h : CacheManager.generateKey type [a] = CacheManager.generateKey type [b]) :
    a = b := by
  unfold CacheManager.generateKey at h
  have ha : String.intercalate ":" [a] = a := rfl
  have hb : String.intercalate ":" [b] = b := rfl
  rw [ha, hb] at h
  have hdata := congrArg String.data h
  simp only [String.data_append] at hdata
  have h2 := List.append_cancel_left hdata
  cases a; cases b
  exact congrArg String.mk (by simpa using h2)

/-- Witness for the amended C6 at a concrete key equation. -/
theorem generateKey_injective_single_arg_witness : ("dune" : String) = "dune" :=
  generateKey_injective_single_arg "searchResults" "dune" "dune" (by decide)

/-- C5: two queries that agree after trimming and lowercasing resolve to the
identical search-results cache key, and operationally the second
`searchMovies` call is served from the entry the first call wrote: it
returns that envelope annotated `cached = true` without invoking the
agent. -/
theorem equivalent_queries_share_cache_slot
    (m : CacheManager Envelope) (now later : Nat) (q1 q2 : String)
    (response response2 : Envelope)
    (hnorm : jsToLower (jsTrim q1) = jsToLower (jsTrim q2))
    (hvalid : jsTrim q1 ≠ "")
    (hmiss : (m.get now "searchResults" [jsToLower (jsTrim q1)]).1 = none)
    (hsuccess : response.success = true)
    (hfresh : later ≤ now + CACHE_TTL "searchResults") :
    CacheManager.generateKey "searchResults" [jsToLower (jsTrim q1)] =
      CacheManager.generateKey "searchResults" [jsToLower (jsTrim q2)] ∧
    handleSearchMovies ((handleSearchMovies m now response (some q1)).2.1) later
        response2 (some q2) =
      ({ response with cached := some true },
       (handleSearchMovies m now response (some q1)).2.1, false) := by
  have hkey : CacheManager.generateKey "searchResults" [jsToLower (jsTrim q1)] =
      CacheManager.generateKey "searchResults" [jsToLower (jsTrim q2)] := by
    rw [hnorm]
  have hvalid2 : jsTrim q2 ≠ "" := by
    intro h2
    apply hvalid
    apply (jsToLower_eq_empty_iff _).mp
    rw [hnorm, h2]
    rfl
  have hfirst := handleSearchMovies_miss m now response q1 hvalid hmiss
  have hm1eq : (handleSearchMovies m now response (some q1)).2.1 =
      ((m.get now "searchResults" [jsToLower (jsTrim q1)]).2).set now
        "searchResults" response [jsToLower (jsTrim q1)] := by
    rw [hfirst]
    simp [hsuccess]
  have hfind1 : ((handleSearchMovies m now response (some q1)).2.1).find
      (CacheManager.generateKey "searchResults" [jsToLower (jsTrim q2)]) =
      some ⟨response, now + CACHE_TTL "searchResults"⟩ := by
    rw [hm1eq, ← hnorm, CacheManager.find_set, if_pos rfl]
  have hget : ((handleSearchMovies m now response (some q1)).2.1).get later
      "searchResults" [jsToLower (jsTrim q2)] =
      (some response, (handleSearchMovies m now response (some q1)).2.1) := by
    rw [CacheManager.get_eq]
    simp only [hfind1]
    rw [if_neg (by omega)]
  have hsecond := handleSearchMovies_hit
    ((handleSearchMovies m now response (some q1)).2.1) later response2 q2
    response hvalid2 (by rw [hget])
  refine ⟨hkey, ?_⟩
  rw [hsecond, hget]

/-- Witness for C5 on "Dune" versus "  dune  " from the empty cache. -/
theorem equivalent_queries_share_cache_slot_witness :
    (handleSearchMovies ((handleSearchMovies ⟨[]⟩ 0 { success := true }
      (some "Dune")).2.1) 1000 { success := false } (some "  dune  ")).1 =
      { success := true, cached := some true } := by
  have h := equivalent_queries_share_cache_slot ⟨[]⟩ 0 1000 "Dune" "  dune  "
    { success := true } { success := false } (by decide) (by decide) rfl rfl
    (by decide)
  rw [h.2]

/-- C1: for each agent-bound operation, when the lookup misses and the
resolved `sendToContentScript` envelope is a failure — a locator failure
(`NO_MOCTALE_TAB`, `INJECTION_FAILED`), a messaging failure
(`COMMUNICATION_ERROR`) or an agent failure envelope — the operation returns
that envelope unchanged and performs no cache write: no binding appears or
changes in the cache, and every entry live at `now` is left exactly as it
was (only the expired entry the lookup itself purged can disappear). -/
theorem failure_envelope_no_cache_write
    (m : CacheManager Envelope) (now : Nat) (o : LocatorOutcome)
    (q mid : String)
    (hfail : (sendToContentScript o).success = false)
    (hq : jsTrim q ≠ "") (hmid : mid ≠ "")
    (hm1 : (m.get now "sessionState" ["status"]).1 = none)
    (hm2 : (m.get now "searchResults" [jsToLower (jsTrim q)]).1 = none)
    (hm3 : (m.get now "movieDetails" [mid]).1 = none) :
    ((handleCheckSession m now (sendToContentScript o)).1 =
        sendToContentScript o ∧
      noNewEntries m (handleCheckSession m now (sendToContentScript o)).2.1 ∧
      livePreserved m (handleCheckSession m now (sendToContentScript o)).2.1 now) ∧
    ((handleSearchMovies m now (sendToContentScript o) (some q)).1 =
        sendToContentScript o ∧
      noNewEntries m
        (handleSearchMovies m now (sendToContentScript o) (some q)).2.1 ∧
      livePreserved m
        (handleSearchMovies m now (sendToContentScript o) (some q)).2.1 now) ∧
    ((handleGetMovieDetails m now (sendToContentScript o) (some mid)).1 =
        sendToContentScript o ∧
      noNewEntries m
        (handleGetMovieDetails m now (sendToContentScript o) (some mid)).2.1 ∧
      livePreserved m
        (handleGetMovieDetails m now (sendToContentScript o) (some mid)).2.1 now) := by
  have e1 := handleCheckSession_miss m now (sendToContentScript o) hm1
  have e2 := handleSearchMovies_miss m now (sendToContentScript o) q hq hm2
  have e3 := handleGetMovieDetails_miss m now (sendToContentScript o) mid hmid hm3
  simp only [hfail] at e1 e2 e3
  rw [if_neg (by simp)] at e1 e2 e3
  refine ⟨⟨?_, ?_, ?_⟩, ⟨?_, ?_, ?_⟩, ⟨?_, ?_, ?_⟩⟩
  · rw [e1]
  · rw [e1]; exact get_noNewEntries m now "sessionState" ["status"]
  · rw [e1]; exact get_livePreserved m now "sessionState" ["status"]
  · rw [e2]
  · rw [e2]; exact get_noNewEntries m now "searchResults" [jsToLower (jsTrim q)]
  · rw [e2]; exact get_livePreserved m now "searchResults" [jsToLower (jsTrim q)]
  · rw [e3]
  · rw [e3]; exact get_noNewEntries m now "movieDetails" [mid]
  · rw [e3]; exact get_livePreserved m now "movieDetails" [mid]

/-- Witness for C1: a locator failure (no Moctale tab) against the empty
cache is returned unchanged by all three operations. -/
theorem failure_envelope_no_cache_write_witness :
    (handleCheckSession ⟨[]⟩ 0 (sendToContentScript .noTab)).1 =
      sendToContentScript .noTab ∧
    (handleSearchMovies ⟨[]⟩ 0 (sendToContentScript .noTab) (some "dune")).1 =
      sendToContentScript .noTab ∧
    (handleGetMovieDetails ⟨[]⟩ 0 (sendToContentScript .noTab)
      (some "dune-2021")).1 = sendToContentScript .noTab := by
  have h := failure_envelope_no_cache_write ⟨[]⟩ 0 .noTab "dune" "dune-2021"
    rfl (by decide) (by decide) rfl rfl rfl
  exact ⟨h.1.1, h.2.1.1, h.2.2.1⟩

/-- The agent's auth envelope of the C2 scenario. -/
def authAliceEnvelope : Envelope :=
  { success := true, isLoggedIn := some true, username := some "alice" }

/-- C2 fails as stated for `checkSession`: after a first call at time 0
caches the agent's `{success:true, isLoggedIn:true, username:"alice"}`
envelope, a second call at 30s (within the 60s session TTL) returns the
cached payload itself — its `cached` field is absent, not `true` — although
staying annotation-free, it does skip the second agent call. -/
theorem checkSession_hit_not_annotated_counterexample :
    (handleCheckSession (handleCheckSession ⟨[]⟩ 0 authAliceEnvelope).2.1
        30000 { success := false }).1 = authAliceEnvelope ∧
    ((handleCheckSession (handleCheckSession ⟨[]⟩ 0 authAliceEnvelope).2.1
        30000 { success := false }).1).cached = none ∧
    ¬ ((handleCheckSession (handleCheckSession ⟨[]⟩ 0 authAliceEnvelope).2.1
        30000 { success := false }).1).cached = some true ∧
    (handleCheckSession (handleCheckSession ⟨[]⟩ 0 authAliceEnvelope).2.1
        30000 { success := false }).2.2 = false := by
  refine ⟨by decide, by decide, by decide, by decide⟩

/-- C2 (amended): on a cache hit, `searchMovies` and `getMovieDetails`
return the cached envelope annotated `cached = true`, while `checkSession`
returns the cached envelope exactly as stored (no `cached` annotation);
in all three cases the agent is not invoked, so a second `checkSession`
within the session-status TTL returns the previously cached auth payload
without a second agent call. -/
theorem cache_hit_annotation_amended
    (m : CacheManager Envelope) (now : Nat) (response : Envelope)
    (cs cq cd : Envelope) (q mid : String)
    (hq : jsTrim q ≠ "") (hmid : mid ≠ "")
    (h1 : (m.get now "sessionState" ["status"]).1 = some cs)
    (h2 : (m.get now "searchResults" [jsToLower (jsTrim q)]).1 = some cq)
    (h3 : (m.get now "movieDetails" [mid]).1 = some cd) :
    ((handleCheckSession m now response).1 = cs ∧
      (handleCheckSession m now response).2.2 = false) ∧
    ((handleSearchMovies m now response (some q)).1 =
        { cq with cached := some true } ∧
      (handleSearchMovies m now response (some q)).2.2 = false) ∧
    ((handleGetMovieDetails m now response (some mid)).1 =
        { cd with cached := some true } ∧
      (handleGetMovieDetails m now response (some mid)).2.2 = false) := by
  have e1 := handleCheckSession_hit m now response cs h1
  have e2 := handleSearchMovies_hit m now response q cq hq h2
  have e3 := handleGetMovieDetails_hit m now response mid cd hmid h3
  exact ⟨⟨by rw [e1], by rw [e1]⟩, ⟨by rw [e2], by rw [e2]⟩,
    ⟨by rw [e3], by rw [e3]⟩⟩

/-- Witness for the amended C2 on a cache holding all three categories. -/
theorem cache_hit_annotation_amended_witness :
    (handleCheckSession ((((⟨[]⟩ : CacheManager Envelope).set 0 "sessionState"
          authAliceEnvelope ["status"]).set 0 "searchResults" { success := true }
          ["dune"]).set 0 "movieDetails" { success := true } ["dune-2021"])
      1000 { success := false }).1 = authAliceEnvelope ∧
    (handleSearchMovies ((((⟨[]⟩ : CacheManager Envelope).set 0 "sessionState"
          authAliceEnvelope ["status"]).set 0 "searchResults" { success := true }
          ["dune"]).set 0 "movieDetails" { success := true } ["dune-2021"])
      1000 { success := false } (some "  Dune ")).1 =
      { success := true, cached := some true } := by
  have h := cache_hit_annotation_amended
    ((((⟨[]⟩ : CacheManager Envelope).set 0 "sessionState" authAliceEnvelope
      ["status"]).set 0 "searchResults" { success := true } ["dune"]).set 0
      "movieDetails" { success := true } ["dune-2021"])
    1000 { success := false } authAliceEnvelope { success := true }
    { success := true } "  Dune " "dune-2021" (by decide) (by decide)
    (by decide) (by decide) (by decide)
  exact ⟨h.1.1, h.2.1.1⟩

/-- C7: on the upstream search payload
`{data:[{slug:"dune-2021",name:"Dune",year:2021,is_show:false,image:"x.jpg"}],
total_pages:3, current_page:1}` the agent's success envelope — which the
router forwards verbatim — holds exactly one normalized item with
`id = "dune-2021"`, kind (`type`) `"movie"`, detail path (`url`)
`"/content/dune-2021"`, and pagination `totalPages = 3`; moreover, for every
upstream item, `id` and `slug` are both populated from the upstream `slug`
field and the detail path is derived deterministically from it. -/
theorem search_normalization_scenario :
    (∀ item : UpstreamItem,
      (normalizeMovieData item).id = item.slug ∧
      (normalizeMovieData item).slug = item.slug ∧
      (normalizeMovieData item).url = "/content/" ++ item.slug) ∧
    (searchViaAPI "dune" 1 (.ok duneSearchAPIResponse)).success = true ∧
    (searchViaAPI "dune" 1 (.ok duneSearchAPIResponse)).results =
      some [duneNormalizedItem] ∧
    ((searchViaAPI "dune" 1 (.ok duneSearchAPIResponse)).pagination.map
      Pagination.totalPages) = some 3 := by
  refine ⟨fun item => ⟨rfl, rfl, rfl⟩, by decide, by decide, by decide⟩

/-- C8: `readIfFresh` (the `GET_PENDING_SEARCH` handler) returns the written
query when called strictly within 5 minutes of the write and returns absent
once 5 minutes have elapsed — in both cases without mutating the stored
slot — returns absent when the slot is absent, and returns absent on every
call after `clear` has removed the slot. -/
theorem pending_search_freshness (q : String) (ts now now2 t t2 : Nat)
    (slot : Option PendingSearch)
    (h1 : now < ts + 5 * 60 * 1000)
    (h2 : ts + 5 * 60 * 1000 ≤ now2) :
    handleGetPendingSearch (some ⟨q, ts⟩) now =
      ({ success := true, query := some q }, some ⟨q, ts⟩) ∧
    handleGetPendingSearch (some ⟨q, ts⟩) now2 =
      ({ success := false }, some ⟨q, ts⟩) ∧
    handleGetPendingSearch none t = ({ success := false }, none) ∧
    handleGetPendingSearch (handleClearPendingSearch slot).2 t2 =
      ({ success := false }, none) := by
  refine ⟨?_, ?_, rfl, rfl⟩
  · rw [show handleGetPendingSearch (some ⟨q, ts⟩) now =
        (if now - ts < 5 * 60 * 1000
         then ({ success := true, query := some q }, some (⟨q, ts⟩ : PendingSearch))
         else ({ success := false }, some ⟨q, ts⟩)) from rfl]
    rw [if_pos (by omega)]
  · rw [show handleGetPendingSearch (some ⟨q, ts⟩) now2 =
        (if now2 - ts < 5 * 60 * 1000
         then ({ success := true, query := some q }, some (⟨q, ts⟩ : PendingSearch))
         else ({ success := false }, some ⟨q, ts⟩)) from rfl]
    rw [if_neg (by omega)]

/-- Witness for C8 one millisecond around the 5-minute boundary. -/
theorem pending_search_freshness_witness :
    handleGetPendingSearch (some ⟨"dune", 0⟩) 299999 =
      ({ success := true, query := some "dune" }, some ⟨"dune", 0⟩) ∧
    handleGetPendingSearch (some ⟨"dune", 0⟩) 300000 =
      ({ success := false }, some ⟨"dune", 0⟩) := by
  have h := pending_search_freshness "dune" 0 299999 300000 7 8
    (some ⟨"stale", 0⟩) (by decide) (by decide)
  exact ⟨h.1, h.2.1⟩

/-- C9: the agent's `CHECK_AUTH` cascade returns `success = true` on every
path — with `isLoggedIn = false` when no probe produced an indicator — so
auth detection never yields a failure envelope, and on a cache miss the
coordinator caches whatever `checkAuth` returned (logged-in or logged-out
alike) under the session-status key with the same 60s TTL. -/
theorem checkAuth_always_success_and_cached
    (c d a : Option AuthProbeResult) (m : CacheManager Envelope) (now : Nat)
    (hmiss : (m.get now "sessionState" ["status"]).1 = none) :
    (checkAuth c d a).success = true ∧
    (checkAuth none none none).isLoggedIn = some false ∧
    (handleCheckSession m now (checkAuth c d a)).1 = checkAuth c d a ∧
    ((handleCheckSession m now (checkAuth c d a)).2.1).find
        (CacheManager.generateKey "sessionState" ["status"]) =
      some ⟨checkAuth c d a, now + CACHE_TTL "sessionState"⟩ ∧
    CACHE_TTL "sessionState" = 60 * 1000 := by
  have hsucc : (checkAuth c d a).success = true := by
    cases c with
    | some r => rfl
    | none =>
        cases d with
        | some r => rfl
        | none =>
            cases a with
            | some r => rfl
            | none => rfl
  have e0 := handleCheckSession_miss m now (checkAuth c d a) hmiss
  have e : handleCheckSession m now (checkAuth c d a) =
      (checkAuth c d a,
       ((m.get now "sessionState" ["status"]).2).set now "sessionState"
         (checkAuth c d a) ["status"], true) := by
    rw [e0, if_pos hsucc]
  refine ⟨hsucc, rfl, by rw [e], ?_, rfl⟩
  rw [e]
  show (((m.get now "sessionState" ["status"]).2).set now "sessionState"
    (checkAuth c d a) ["status"]).find
    (CacheManager.generateKey "sessionState" ["status"]) = _
  rw [CacheManager.find_set, if_pos rfl]

/-- Witness for C9 with all three probes indefinite, on the empty cache. -/
theorem checkAuth_always_success_and_cached_witness :
    (checkAuth none none none).success = true ∧
    (handleCheckSession ⟨[]⟩ 0 (checkAuth none none none)).1 =
      checkAuth none none none := by
  have h := checkAuth_always_success_and_cached none none none ⟨[]⟩ 0 rfl
  exact ⟨h.1, h.2.2.1⟩

/-- C10: a context-menu click with a selection that is non-empty after
trimming writes the pending record `{query := trimmed selection,
timestamp := now}` and opens the popup window; a click whose selection is
empty or whitespace-only (trims to empty) writes nothing and opens no
popup. -/
theorem context_menu_pending_write (sel sel2 : String) (now now2 : Nat)
    (slot slot2 : Option PendingSearch)
    (h1 : jsTrim sel ≠ "") (h2 : jsTrim sel2 = "") :
    contextMenusOnClicked CONTEXT_MENU_ID (some sel) now slot =
      (some ⟨jsTrim sel, now⟩, true) ∧
    contextMenusOnClicked CONTEXT_MENU_ID (some sel2) now2 slot2 =
      (slot2, false) ∧
    contextMenusOnClicked CONTEXT_MENU_ID none now2 slot2 = (slot2, false) := by
  refine ⟨?_, ?_, rfl⟩
  · have hsel : sel ≠ "" := jsTrim_ne_empty_of sel h1
    unfold contextMenusOnClicked
    rw [if_pos ⟨rfl, by simpa using hsel⟩]
    simp only [Option.getD_some]
    rw [if_pos h1]
  · unfold contextMenusOnClicked
    by_cases hsel2 : sel2 = ""
    · rw [if_neg (by simp [hsel2])]
    · rw [if_pos ⟨rfl, by simpa using hsel2⟩]
      simp only [Option.getD_some]
      rw [if_neg (by simpa using h2)]

/-- Witness for C10 on the selections " dune " and "   ". -/
theorem context_menu_pending_write_witness :
    contextMenusOnClicked CONTEXT_MENU_ID (some " dune ") 42 none =
      (some ⟨"dune", 42⟩, true) ∧
    contextMenusOnClicked CONTEXT_MENU_ID (some "   ") 43 (some ⟨"x", 1⟩) =
      (some ⟨"x", 1⟩, false) := by
  have h := context_menu_pending_write " dune " "   " 42 43 none
    (some ⟨"x", 1⟩) (by decide) (by decide)
  exact ⟨h.1, h.2.1⟩

end Moctale
